import Mathlib

/-!
Shallow embedding of the openai-rust chat-completion client library.

The embedding follows the source files under src/ :
- `src/openai/client.rs` : `Client`, `Client::new`, `Client::generate_api_uri`,
  `Client::update_api_endpoint_to_have_a_slash_add_the_end`
- `src/openai/requestor.rs` : `Requestor::post for Client` (header selection,
  dispatch of the HTTP call)
- `src/openai/chat/chat_completion.rs` : `ChatCompletion` builder, its
  validating setters, serde serialization shape, and `ChatCompletion::create`
- `src/openai/chat/chat_message.rs` : `ChatMessage`, `ChatMessageBuilder`
- `src/openai/error.rs`, `src/openai/chat/error.rs` : error enums
- `src/openai/auth.rs` : `Auth`

The file `src/openai/api_type.rs` is declared by `src/openai/mod.rs` but not
present under src/; the enum `ApiType` is reconstructed from its exhaustive
uses (`match self.api_type { ApiType::Azure | ApiType::AzureAD => .., ApiType::OpenAI => .. }`
in client.rs, and the equality tests in requestor.rs and chat_completion.rs):
it has exactly the three variants `OpenAI`, `Azure`, `AzureAD` and supports
equality.

Rust `f32` is modelled by `F32`: either a real numeric value (as a rational)
or NaN, with IEEE-style comparisons in which every comparison involving NaN
is false.  `HashMap` fields are modelled as association lists.  The network
and the JSON decoder of the response are external collaborators and are
passed in as explicit functions.
-/

/-- `ApiType` from `src/openai/api_type.rs` (file absent from src/; variants
reconstructed from the exhaustive matches in client.rs). -/
inductive ApiType where
  | OpenAI
  | Azure
  | AzureAD
deriving DecidableEq, Repr

/-- `Auth` from `src/openai/auth.rs`. -/
structure Auth where
  api_key : String
deriving DecidableEq, Repr

/-- `ClientErrorType` from `src/openai/error.rs`. -/
inductive ClientErrorType where
  | ModelIdMissingToGenerateApiUriForAzure
deriving DecidableEq, Repr

/-- `Error` from `src/openai/error.rs`. -/
inductive Error where
  | ApiError (status : Nat) (message : String)
  | ClientError (t : ClientErrorType)
deriving DecidableEq, Repr

/-- `Client` from `src/openai/client.rs` (the `reqwest::Client` handle carries
no data relevant to any claim and is omitted). -/
structure Client where
  api_endpoint : String
  api_type : ApiType
  auth : Auth
deriving DecidableEq, Repr

/-- Rust `str::ends_with("/")` applied to a one-character pattern: true iff
the last character is a slash. -/
def rustEndsWithSlash (s : String) : Bool :=
  s.data.getLast? = some '/'

namespace Client

/-- `Client::update_api_endpoint_to_have_a_slash_add_the_end` from client.rs. -/
def update_api_endpoint_to_have_a_slash_add_the_end (api_endpoint : String) : String :=
  if !(rustEndsWithSlash api_endpoint) then
    api_endpoint ++ "/"
  else
    api_endpoint

/-- `Client::new` from client.rs. -/
def new (auth : Auth) (api_endpoint : String) (api_type : ApiType) : Client :=
  { api_endpoint := update_api_endpoint_to_have_a_slash_add_the_end api_endpoint,
    api_type := api_type,
    auth := auth }

/-- `OPENAI_ENDPOINT` constant from client.rs. -/
def OPENAI_ENDPOINT : String := "https://api.openai.com/v1/"

/-- `Client::new_openai_client` from client.rs. -/
def new_openai_client (auth : Auth) : Client :=
  new auth OPENAI_ENDPOINT ApiType.OpenAI

/-- `Client::get_api_key` from client.rs. -/
def get_api_key (c : Client) : String :=
  c.auth.api_key

/-- `Client::generate_api_uri` from client.rs.  Rust
`format!("{}openai/deployments/{}/{}?api-version={}", ..)` and
`format!("{}engines/{}", ..)` are rendered as string concatenation. -/
def generate_api_uri (c : Client) (api_path : String) (model_id : Option String)
    (api_version : Option String) : Except Error String :=
  match c.api_type with
  | ApiType.Azure | ApiType.AzureAD =>
    match model_id with
    | some model_id =>
      let api_version : String :=
        match api_version with
        | some api_version => api_version
        | none => "2023-05-15"
      Except.ok (c.api_endpoint ++ "openai/deployments/" ++ model_id ++ "/" ++ api_path
        ++ "?api-version=" ++ api_version)
    | none => Except.error (Error.ClientError ClientErrorType.ModelIdMissingToGenerateApiUriForAzure)
  | ApiType.OpenAI => Except.ok (c.api_endpoint ++ "engines/" ++ api_path)

end Client

/-- Rust `f32`: either a numeric value (modelled as a rational) or NaN.
Comparisons are IEEE-754: any comparison involving NaN is false. -/
inductive F32 where
  | val (q : ℚ)
  | nan
deriving DecidableEq, Repr

namespace F32

/-- IEEE `<` on `f32`: false whenever an operand is NaN. -/
def flt : F32 → F32 → Bool
  | val a, val b => decide (a < b)
  | _, _ => false

/-- IEEE `>` on `f32`: false whenever an operand is NaN. -/
def fgt (a b : F32) : Bool := flt b a

/-- IEEE `<=` on `f32`: false whenever an operand is NaN. -/
def fle : F32 → F32 → Bool
  | val a, val b => decide (a ≤ b)
  | _, _ => false

end F32

/-- `Role` from `src/openai/chat/role.rs`; serde renames all variants to
lowercase on the wire. -/
inductive Role where
  | System
  | Assistant
  | User
  | Function
deriving DecidableEq, Repr

/-- The serde `rename_all = "lowercase"` wire tag of a `Role`. -/
def Role.serialize : Role → String
  | Role.System => "system"
  | Role.Assistant => "assistant"
  | Role.User => "user"
  | Role.Function => "function"

/-- `FunctionCall` from `src/openai/chat/function_call.rs` (`arguments` is a
raw string there; the duplicate in `src/openai/chat/model/function_call.rs`
uses a string map — per the design notes the shapes collapse to one canonical
record, and no claim depends on the difference). -/
structure FunctionCall where
  name : String
  arguments : String
deriving DecidableEq, Repr

/-- `FunctionDefinition` from `src/openai/chat/function_definition.rs`
(the `desription` spelling is the source's). -/
structure FunctionDefinition where
  name : String
  desription : String
  parameters : String
deriving DecidableEq, Repr

/-- `ChatMessage` from `src/openai/chat/chat_message.rs`.  The file
`src/openai/chat/model/chat_message.rs` declared by model/mod.rs is absent
from src/; per the design notes the near-identical duplicated shapes collapse
to this one canonical record. -/
structure ChatMessage where
  role : Role
  content : String
  function_call : Option FunctionCall
  name : Option String
deriving DecidableEq, Repr

/-- `ChatMessageBuilder` from `src/openai/chat/chat_message.rs`. -/
structure ChatMessageBuilder where
  messages : List ChatMessage
deriving DecidableEq, Repr

namespace ChatMessageBuilder

/-- `ChatMessageBuilder::new`. -/
def new : ChatMessageBuilder := { messages := [] }

/-- `ChatMessageBuilder::system`: pushes a System message with the given
content; no validation. -/
def system (b : ChatMessageBuilder) (content : String) : ChatMessageBuilder :=
  { b with messages := b.messages ++
      [{ role := Role.System, content := content, function_call := none, name := none }] }

/-- `ChatMessageBuilder::assistant`: pushes an Assistant message with the
given content; no validation. -/
def assistant (b : ChatMessageBuilder) (content : String) : ChatMessageBuilder :=
  { b with messages := b.messages ++
      [{ role := Role.Assistant, content := content, function_call := none, name := none }] }

/-- `ChatMessageBuilder::user`: pushes a User message with the given content;
no validation. -/
def user (b : ChatMessageBuilder) (content : String) : ChatMessageBuilder :=
  { b with messages := b.messages ++
      [{ role := Role.User, content := content, function_call := none, name := none }] }

/-- `ChatMessageBuilder::function`: pushes a Function message with the given
content, function-call record and name; no validation. -/
def function (b : ChatMessageBuilder) (content : String) (function_call : FunctionCall)
    (name : String) : ChatMessageBuilder :=
  { b with messages := b.messages ++
      [{ role := Role.Function, content := content, function_call := some function_call,
         name := some name }] }

/-- `ChatMessageBuilder::build`. -/
def build (b : ChatMessageBuilder) : List ChatMessage :=
  b.messages

end ChatMessageBuilder

/-- `ChatCompletionError` from `src/openai/chat/error.rs`. -/
inductive ChatCompletionError where
  | EmptyMessageContent
  | EmptyMessages
  | FrequencyPenaltyValueOutOfRange (v : F32)
  | PresencePenaltyValueOutOfRange (v : F32)
  | StopSequencesOutOfRange (count : Nat)
  | TemperatureValueOutOfRange (v : F32)
  | TopPValueOutOfRange (v : F32)
deriving DecidableEq, Repr

/-- JSON values as produced by serde for the request body. -/
inductive Json where
  | null
  | bool (b : Bool)
  | num (v : F32)
  | nat (n : Nat)
  | str (s : String)
  | arr (elems : List Json)
  | obj (members : List (String × Json))

/-- One optional serde member: emitted iff the value is present
(`skip_serializing_if = "Option::is_none"`). -/
def optMember (key : String) : Option Json → List (String × Json)
  | some j => [(key, j)]
  | none => []

/-- serde serialization of a `FunctionCall`. -/
def FunctionCall.serialize (fc : FunctionCall) : Json :=
  Json.obj [("name", Json.str fc.name), ("arguments", Json.str fc.arguments)]

/-- serde serialization of a `FunctionDefinition`. -/
def FunctionDefinition.serialize (fd : FunctionDefinition) : Json :=
  Json.obj [("name", Json.str fd.name), ("desription", Json.str fd.desription),
    ("parameters", Json.str fd.parameters)]

/-- serde serialization of a `ChatMessage`: `role` and `content` always,
`function_call` and `name` only when present. -/
def ChatMessage.serialize (m : ChatMessage) : Json :=
  Json.obj ([("role", Json.str m.role.serialize), ("content", Json.str m.content)]
    ++ optMember "function_call" (m.function_call.map FunctionCall.serialize)
    ++ optMember "name" (m.name.map Json.str))

/-- `ChatCompletion` from `src/openai/chat/chat_completion.rs`.  `u16`/`u32`
fields are modelled as `Nat` (no claim involves overflow), `f32` as `F32`,
and the `HashMap<String, f32>` logit-bias as an association list. -/
structure ChatCompletion where
  model : Option String
  messages : List ChatMessage
  temperature : Option F32
  top_p : Option F32
  n : Option Nat
  stream : Option Bool
  stop : Option (List String)
  max_tokens : Option Nat
  presence_penalty : Option F32
  frequency_penalty : Option F32
  logit_bias : Option (List (String × F32))
  user : Option String
  function_call : Option String
  functions : Option (List FunctionDefinition)
deriving DecidableEq, Repr

namespace ChatCompletion

/-- `ChatCompletion::new`: every field unset, message list empty. -/
def new : ChatCompletion :=
  { model := none, messages := [], temperature := none, top_p := none, n := none,
    stream := none, stop := none, max_tokens := none, presence_penalty := none,
    frequency_penalty := none, logit_bias := none, user := none,
    function_call := none, functions := none }

/-- `ChatCompletion::message` (Lean forbids reusing the field name): rejects
empty content, otherwise appends. -/
def addMessage (cc : ChatCompletion) (message : ChatMessage) :
    Except ChatCompletionError ChatCompletion :=
  if message.content.isEmpty then
    Except.error ChatCompletionError.EmptyMessageContent
  else
    Except.ok { cc with messages := cc.messages ++ [message] }

/-- `ChatCompletion::messages`: unconditional bulk replacement. -/
def setMessages (cc : ChatCompletion) (messages : List ChatMessage) : ChatCompletion :=
  { cc with messages := messages }

/-- `ChatCompletion::temperature`: rejects `temperature < 0.0 || temperature > 2.0`. -/
def setTemperature (cc : ChatCompletion) (temperature : F32) :
    Except ChatCompletionError ChatCompletion :=
  if F32.flt temperature (F32.val 0) || F32.fgt temperature (F32.val 2) then
    Except.error (ChatCompletionError.TemperatureValueOutOfRange temperature)
  else
    Except.ok { cc with temperature := some temperature }

/-- `ChatCompletion::top_p`: rejects `top_p < 0.0 || top_p > 1.0`. -/
def setTopP (cc : ChatCompletion) (top_p : F32) :
    Except ChatCompletionError ChatCompletion :=
  if F32.flt top_p (F32.val 0) || F32.fgt top_p (F32.val 1) then
    Except.error (ChatCompletionError.TopPValueOutOfRange top_p)
  else
    Except.ok { cc with top_p := some top_p }

/-- `ChatCompletion::n`: unconditional setter. -/
def setN (cc : ChatCompletion) (n : Nat) : ChatCompletion :=
  { cc with n := some n }

/-- `ChatCompletion::stream`: unconditional setter. -/
def setStream (cc : ChatCompletion) (stream : Bool) : ChatCompletion :=
  { cc with stream := some stream }

/-- `ChatCompletion::stop`: empty list clears the field, more than 4 entries
is rejected with the count. -/
def setStop (cc : ChatCompletion) (stop : List String) :
    Except ChatCompletionError ChatCompletion :=
  if stop.isEmpty then
    Except.ok { cc with stop := none }
  else if stop.length > 4 then
    Except.error (ChatCompletionError.StopSequencesOutOfRange stop.length)
  else
    Except.ok { cc with stop := some stop }

/-- `ChatCompletion::max_tokens`: unconditional setter. -/
def setMaxTokens (cc : ChatCompletion) (max_tokens : Nat) : ChatCompletion :=
  { cc with max_tokens := some max_tokens }

/-- `ChatCompletion::presence_penalty`: rejects values with
`presence_penalty < -2.0 || presence_penalty > 2.0`. -/
def setPresencePenalty (cc : ChatCompletion) (presence_penalty : F32) :
    Except ChatCompletionError ChatCompletion :=
  if F32.flt presence_penalty (F32.val (-2)) || F32.fgt presence_penalty (F32.val 2) then
    Except.error (ChatCompletionError.PresencePenaltyValueOutOfRange presence_penalty)
  else
    Except.ok { cc with presence_penalty := some presence_penalty }

/-- `ChatCompletion::frequency_penalty`: rejects values with
`frequency_penalty < -2.0 || frequency_penalty > 2.0`. -/
def setFrequencyPenalty (cc : ChatCompletion) (frequency_penalty : F32) :
    Except ChatCompletionError ChatCompletion :=
  if F32.flt frequency_penalty (F32.val (-2)) || F32.fgt frequency_penalty (F32.val 2) then
    Except.error (ChatCompletionError.FrequencyPenaltyValueOutOfRange frequency_penalty)
  else
    Except.ok { cc with frequency_penalty := some frequency_penalty }

/-- `ChatCompletion::logit_bias`: empty map clears the field. -/
def setLogitBias (cc : ChatCompletion) (logit_bias : List (String × F32)) : ChatCompletion :=
  if logit_bias.isEmpty then
    { cc with logit_bias := none }
  else
    { cc with logit_bias := some logit_bias }

/-- `ChatCompletion::user`: empty string clears the field. -/
def setUser (cc : ChatCompletion) (user : String) : ChatCompletion :=
  if user.isEmpty then
    { cc with user := none }
  else
    { cc with user := some user }

/-- `ChatCompletion::function_call`: empty string clears the field. -/
def setFunctionCall (cc : ChatCompletion) (function_call : String) : ChatCompletion :=
  if function_call.isEmpty then
    { cc with function_call := none }
  else
    { cc with function_call := some function_call }

/-- `ChatCompletion::functions`: empty list clears the field. -/
def setFunctions (cc : ChatCompletion) (functions : List FunctionDefinition) : ChatCompletion :=
  if functions.isEmpty then
    { cc with functions := none }
  else
    { cc with functions := some functions }

/-- The serde member list of a `ChatCompletion` in declaration order; every
`Option` field carries `skip_serializing_if = "Option::is_none"`, so an unset
field contributes no member at all. -/
def serializeMembers (cc : ChatCompletion) : List (String × Json) :=
  optMember "model" (cc.model.map Json.str)
  ++ [("messages", Json.arr (cc.messages.map ChatMessage.serialize))]
  ++ optMember "temperature" (cc.temperature.map Json.num)
  ++ optMember "top_p" (cc.top_p.map Json.num)
  ++ optMember "n" (cc.n.map Json.nat)
  ++ optMember "stream" (cc.stream.map Json.bool)
  ++ optMember "stop" (cc.stop.map (fun xs => Json.arr (xs.map Json.str)))
  ++ optMember "max_tokens" (cc.max_tokens.map Json.nat)
  ++ optMember "presence_penalty" (cc.presence_penalty.map Json.num)
  ++ optMember "frequency_penalty" (cc.frequency_penalty.map Json.num)
  ++ optMember "logit_bias" (cc.logit_bias.map
       (fun ps => Json.obj (ps.map (fun p => (p.1, Json.num p.2)))))
  ++ optMember "user" (cc.user.map Json.str)
  ++ optMember "function_call" (cc.function_call.map Json.str)
  ++ optMember "functions" (cc.functions.map
       (fun fs => Json.arr (fs.map FunctionDefinition.serialize)))

/-- serde serialization of a `ChatCompletion` (the value handed to
`serde_json::to_string` in `create`). -/
def serialize (cc : ChatCompletion) : Json :=
  Json.obj cc.serializeMembers

/-- The member names present in the serialized request body. -/
def serializeKeys (cc : ChatCompletion) : List String :=
  cc.serializeMembers.map Prod.fst

end ChatCompletion

/-- Escape of one character inside a rendered JSON string literal. -/
def jsonEscapeChar (c : Char) : String :=
  if c = '\"' then "\\\"" else if c = '\\' then "\\\\" else String.singleton c

/-- A rendered JSON string literal. -/
def jsonRenderStr (s : String) : String :=
  "\"" ++ String.join (s.data.map jsonEscapeChar) ++ "\""

mutual

/-- Textual rendering of a `Json` value, the model of `serde_json::to_string`
(serde emits `null` for non-finite floats). -/
def Json.render : Json → String
  | Json.null => "null"
  | Json.bool b => cond b "true" "false"
  | Json.num (F32.val q) => toString q
  | Json.num F32.nan => "null"
  | Json.nat n => toString n
  | Json.str s => jsonRenderStr s
  | Json.arr xs => "[" ++ Json.renderList xs ++ "]"
  | Json.obj ms => "\x7b" ++ Json.renderMembers ms ++ "\x7d"

/-- Comma-separated rendering of array elements. -/
def Json.renderList : List Json → String
  | [] => ""
  | [x] => Json.render x
  | x :: xs => Json.render x ++ "," ++ Json.renderList xs

/-- Comma-separated rendering of object members. -/
def Json.renderMembers : List (String × Json) → String
  | [] => ""
  | [(k, v)] => jsonRenderStr k ++ ":" ++ Json.render v
  | (k, v) :: ms => jsonRenderStr k ++ ":" ++ Json.render v ++ "," ++ Json.renderMembers ms

end

/-- Outcome of the external HTTP transport for one request: the awaited
response body text on success, or a transport failure (the
`send().await? .text().await?` chain of requestor.rs). -/
inductive SendOutcome where
  | success (text : String)
  | failure (message : String)

/-- The observable HTTP request handed to the transport: URI, header list in
insertion order, body text. -/
structure HttpRequest where
  uri : String
  headers : List (String × String)
  body : String

/-- The header set built by `Requestor::post for Client` in requestor.rs:
always `Content-Type: application/json`; then `api-key: <secret>` when the
api type is Azure, a bearer Authorization credential when it is OpenAI, and
nothing further when it is AzureAD (managed identity). -/
def dispatchHeaders (c : Client) : List (String × String) :=
  let hs : List (String × String) := [("Content-Type", "application/json")]
  if c.api_type = ApiType.Azure then
    hs ++ [("api-key", c.get_api_key)]
  else if c.api_type = ApiType.OpenAI then
    hs ++ [("Authorization", "Bearer " ++ c.get_api_key)]
  else
    hs

/-- Errors out of `Requestor::post`: a URI-resolution failure propagated from
`generate_api_uri`, or a transport failure (in the source both travel in
`Box<dyn Error>` but remain distinct downcastable types). -/
inductive DispatchError where
  | clientError (e : Error)
  | sendError (message : String)
deriving DecidableEq, Repr

/-- `Requestor::post for Client` from requestor.rs: resolve the URI
(propagating its failure), build the request with the provider-appropriate
headers, run the transport, and return the raw response body text. -/
def Requestor.post (c : Client) (api_path : String) (body : String)
    (model_id : Option String) (api_version : Option String)
    (transport : HttpRequest → SendOutcome) : Except DispatchError String :=
  match c.generate_api_uri api_path model_id api_version with
  | Except.error e => Except.error (DispatchError.clientError e)
  | Except.ok api_uri =>
    match transport { uri := api_uri, headers := dispatchHeaders c, body := body } with
    | SendOutcome.success text => Except.ok text
    | SendOutcome.failure m => Except.error (DispatchError.sendError m)

/-- `Usage` from `src/openai/chat/model/usage.rs`. -/
structure Usage where
  prompt_tokens : Nat
  completion_tokens : Nat
  total_tokens : Nat
deriving DecidableEq, Repr

/-- `Choice` from `src/openai/chat/model/choice.rs`. -/
structure Choice where
  index : Nat
  message : ChatMessage
  finish_reason : String
deriving DecidableEq, Repr

/-- `ChatCompletionResponse` from `src/openai/chat/model/chat_completion_response.rs`. -/
structure ChatCompletionResponse where
  id : String
  object : String
  created : Nat
  model : String
  choices : List Choice
  usage : Option Usage
deriving DecidableEq, Repr

/-- `API_PATH` constant from chat_completion.rs. -/
def API_PATH : String := "chat/completions"

/-- Errors out of `ChatCompletion::create`: a builder validation error, a
dispatch error (URI resolution or send), or a failure decoding the response
body (in the source: `ChatCompletionError`, `reqwest`/client errors, and the
JSON decode error, all boxed but of distinct types). -/
inductive CreateError where
  | chatError (e : ChatCompletionError)
  | dispatchError (e : DispatchError)
  | decodeError (message : String)
deriving DecidableEq, Repr

/-- `ChatCompletion::create` from chat_completion.rs: rejects an empty
message list; stamps the model id into the body only for the OpenAI api type
(`&mut self`, so the first component returns the possibly-updated value);
serializes the body; posts it through the Requestor with the model id always
supplied; finally decodes the response body text into a
`ChatCompletionResponse` via the external JSON codec `decode`. -/
def ChatCompletion.create (cc : ChatCompletion) (client : Client) (model_id : String)
    (api_version : Option String) (transport : HttpRequest → SendOutcome)
    (decode : String → Except String ChatCompletionResponse) :
    ChatCompletion × Except CreateError ChatCompletionResponse :=
  if cc.messages.isEmpty then
    (cc, Except.error (CreateError.chatError ChatCompletionError.EmptyMessages))
  else
    let cc := if client.api_type = ApiType.OpenAI then { cc with model := some model_id } else cc
    let request_body := (ChatCompletion.serialize cc).render
    match Requestor.post client API_PATH request_body (some model_id) api_version transport with
    | Except.error e => (cc, Except.error (CreateError.dispatchError e))
    | Except.ok response =>
      match decode response with
      | Except.error m => (cc, Except.error (CreateError.decodeError m))
      | Except.ok r => (cc, Except.ok r)

/-! ## Helper lemmas -/

/-- The out-of-range test of the numeric setters, specialised to a numeric
(non-NaN) value: it is false exactly on the closed interval. -/
theorem flt_fgt_val_eq_false (lo hi q : ℚ) :
    (F32.flt (F32.val q) (F32.val lo) || F32.fgt (F32.val q) (F32.val hi)) = false
      ↔ (lo ≤ q ∧ q ≤ hi) := by
  simp [F32.flt, F32.fgt, not_lt]

/-- The key list contributed by one optional serde member. -/
theorem optMember_keys (k : String) (o : Option Json) :
    (optMember k o).map Prod.fst = cond o.isSome [k] [] := by
  cases o <;> rfl

/-- Membership in a conditional singleton list. -/
theorem mem_cond_singleton {α : Type _} (x a : α) (b : Bool) :
    x ∈ (cond b [a] []) ↔ (b = true ∧ x = a) := by
  cases b <;> simp

/-- Characterization of the member names of a serialized `ChatCompletion`:
`messages` is always present, and each optional field contributes its key
exactly when it is set. -/
theorem serializeKeys_mem (cc : ChatCompletion) (key : String) :
    key ∈ cc.serializeKeys
      ↔ ((cc.model.isSome ∧ key = "model")
         ∨ key = "messages"
         ∨ (cc.temperature.isSome ∧ key = "temperature")
         ∨ (cc.top_p.isSome ∧ key = "top_p")
         ∨ (cc.n.isSome ∧ key = "n")
         ∨ (cc.stream.isSome ∧ key = "stream")
         ∨ (cc.stop.isSome ∧ key = "stop")
         ∨ (cc.max_tokens.isSome ∧ key = "max_tokens")
         ∨ (cc.presence_penalty.isSome ∧ key = "presence_penalty")
         ∨ (cc.frequency_penalty.isSome ∧ key = "frequency_penalty")
         ∨ (cc.logit_bias.isSome ∧ key = "logit_bias")
         ∨ (cc.user.isSome ∧ key = "user")
         ∨ (cc.function_call.isSome ∧ key = "function_call")
         ∨ (cc.functions.isSome ∧ key = "functions")) := by
  simp only [ChatCompletion.serializeKeys, ChatCompletion.serializeMembers, List.map_append,
    optMember_keys, Option.isSome_map', List.mem_append, mem_cond_singleton, List.map_cons,
    List.map_nil, List.mem_singleton, or_assoc]

/-- The `model` member is present in the serialized body iff the `model`
field is set. -/
theorem model_mem_serializeKeys (cc : ChatCompletion) :
    "model" ∈ cc.serializeKeys ↔ cc.model.isSome := by
  rw [serializeKeys_mem]
  simp

/-- The builder states of `ChatCompletion` that the library's API can
produce: `new` followed by any sequence of the public setters (`create` is
the finalizer, not a builder step). -/
inductive Reachable : ChatCompletion → Prop
  | new : Reachable ChatCompletion.new
  | addMessage {cc cc' : ChatCompletion} {m : ChatMessage} :
      Reachable cc → cc.addMessage m = Except.ok cc' → Reachable cc'
  | setMessages {cc : ChatCompletion} (msgs : List ChatMessage) :
      Reachable cc → Reachable (cc.setMessages msgs)
  | setTemperature {cc cc' : ChatCompletion} {v : F32} :
      Reachable cc → cc.setTemperature v = Except.ok cc' → Reachable cc'
  | setTopP {cc cc' : ChatCompletion} {v : F32} :
      Reachable cc → cc.setTopP v = Except.ok cc' → Reachable cc'
  | setN {cc : ChatCompletion} (n : Nat) : Reachable cc → Reachable (cc.setN n)
  | setStream {cc : ChatCompletion} (b : Bool) : Reachable cc → Reachable (cc.setStream b)
  | setStop {cc cc' : ChatCompletion} {xs : List String} :
      Reachable cc → cc.setStop xs = Except.ok cc' → Reachable cc'
  | setMaxTokens {cc : ChatCompletion} (n : Nat) : Reachable cc → Reachable (cc.setMaxTokens n)
  | setPresencePenalty {cc cc' : ChatCompletion} {v : F32} :
      Reachable cc → cc.setPresencePenalty v = Except.ok cc' → Reachable cc'
  | setFrequencyPenalty {cc cc' : ChatCompletion} {v : F32} :
      Reachable cc → cc.setFrequencyPenalty v = Except.ok cc' → Reachable cc'
  | setLogitBias {cc : ChatCompletion} (ps : List (String × F32)) :
      Reachable cc → Reachable (cc.setLogitBias ps)
  | setUser {cc : ChatCompletion} (u : String) : Reachable cc → Reachable (cc.setUser u)
  | setFunctionCall {cc : ChatCompletion} (f : String) :
      Reachable cc → Reachable (cc.setFunctionCall f)
  | setFunctions {cc : ChatCompletion} (fs : List FunctionDefinition) :
      Reachable cc → Reachable (cc.setFunctions fs)

/-- No public builder operation ever sets the `model` field: every reachable
builder state has `model = none` (only `create` stamps it). -/
theorem Reachable.model_none {cc : ChatCompletion} (h : Reachable cc) : cc.model = none := by
  induction h with
  | new => rfl
  | addMessage _ hok ih =>
    rw [ChatCompletion.addMessage] at hok
    split at hok
    · exact Except.noConfusion hok
    · cases hok
      exact ih
  | setMessages msgs _ ih => exact ih
  | setTemperature _ hok ih =>
    rw [ChatCompletion.setTemperature] at hok
    split at hok
    · exact Except.noConfusion hok
    · cases hok
      exact ih
  | setTopP _ hok ih =>
    rw [ChatCompletion.setTopP] at hok
    split at hok
    · exact Except.noConfusion hok
    · cases hok
      exact ih
  | setN n _ ih => exact ih
  | setStream b _ ih => exact ih
  | setStop _ hok ih =>
    rw [ChatCompletion.setStop] at hok
    split at hok
    · cases hok
      exact ih
    · split at hok
      · exact Except.noConfusion hok
      · cases hok
        exact ih
  | setMaxTokens n _ ih => exact ih
  | setPresencePenalty _ hok ih =>
    rw [ChatCompletion.setPresencePenalty] at hok
    split at hok
    · exact Except.noConfusion hok
    · cases hok
      exact ih
  | setFrequencyPenalty _ hok ih =>
    rw [ChatCompletion.setFrequencyPenalty] at hok
    split at hok
    · exact Except.noConfusion hok
    · cases hok
      exact ih
  | setLogitBias ps _ ih =>
    rw [ChatCompletion.setLogitBias]
    split <;> exact ih
  | setUser u _ ih =>
    rw [ChatCompletion.setUser]
    split <;> exact ih
  | setFunctionCall f _ ih =>
    rw [ChatCompletion.setFunctionCall]
    split <;> exact ih
  | setFunctions fs _ ih =>
    rw [ChatCompletion.setFunctions]
    split <;> exact ih

/-- `generate_api_uri` always succeeds when a model id is supplied. -/
theorem generate_api_uri_some_ok (c : Client) (api_path mid : String)
    (ver : Option String) :
    ∃ u, c.generate_api_uri api_path (some mid) ver = Except.ok u := by
  rcases c with ⟨ep, ty, au⟩
  cases ty <;> cases ver <;> exact ⟨_, rfl⟩

/-- On a non-empty message list, the builder value coming out of `create` is
the input with the model stamped for the OpenAI api type and the input
unchanged otherwise, whatever the transport and decoder did. -/
theorem create_fst (cc : ChatCompletion) (client : Client) (mid : String)
    (ver : Option String) (transport : HttpRequest → SendOutcome)
    (decode : String → Except String ChatCompletionResponse)
    (h : cc.messages ≠ []) :
    (cc.create client mid ver transport decode).1
      = if client.api_type = ApiType.OpenAI then { cc with model := some mid } else cc := by
  have hne : cc.messages.isEmpty = false := List.isEmpty_eq_false.mpr h
  rw [ChatCompletion.create]
  simp only [hne, Bool.false_eq_true, if_false]
  split
  · rfl
  · split
    · rfl
    · rfl

/-! ## Theorems -/

/-- C1: the dispatcher's header set is determined by the provider kind: for
`ApiType.Azure` (gateway key) it attaches the secret in exactly the one named
header `api-key`; for `ApiType.OpenAI` (direct API) it attaches the secret as
a bearer Authorization credential; for `ApiType.AzureAD` (managed identity)
it attaches only the content-type header — no credential-bearing header — so
the emitted headers are independent of the secret: two clients with different
secrets produce identical headers. -/
theorem C1_dispatch_header_selection :
    (∀ c : Client, c.api_type = ApiType.Azure →
      dispatchHeaders c = [("Content-Type", "application/json"), ("api-key", c.auth.api_key)])
    ∧ (∀ c : Client, c.api_type = ApiType.OpenAI →
      dispatchHeaders c
        = [("Content-Type", "application/json"), ("Authorization", "Bearer " ++ c.auth.api_key)])
    ∧ (∀ c : Client, c.api_type = ApiType.AzureAD →
      dispatchHeaders c = [("Content-Type", "application/json")])
    ∧ (∀ c1 c2 : Client, c1.api_type = ApiType.AzureAD → c2.api_type = ApiType.AzureAD →
      dispatchHeaders c1 = dispatchHeaders c2) := by
  refine ⟨?_, ?_, ?_, ?_⟩
  · intro c h
    simp [dispatchHeaders, h, Client.get_api_key]
  · intro c h
    simp [dispatchHeaders, h, Client.get_api_key]
  · intro c h
    simp [dispatchHeaders, h]
  · intro c1 c2 h1 h2
    simp [dispatchHeaders, h1, h2]

/-- C1 witness: the three header shapes at concrete clients, and the
managed-identity independence at two distinct secrets. -/
theorem C1_dispatch_header_selection_witness :
    dispatchHeaders (Client.new ⟨"s1"⟩ "https://r.azure.com/" ApiType.Azure)
      = [("Content-Type", "application/json"), ("api-key", "s1")]
    ∧ dispatchHeaders (Client.new ⟨"s1"⟩ "https://api.openai.com/v1/" ApiType.OpenAI)
      = [("Content-Type", "application/json"), ("Authorization", "Bearer " ++ "s1")]
    ∧ dispatchHeaders (Client.new ⟨"s1"⟩ "https://r.azure.com/" ApiType.AzureAD)
      = [("Content-Type", "application/json")]
    ∧ dispatchHeaders (Client.new ⟨"s1"⟩ "https://r.azure.com/" ApiType.AzureAD)
      = dispatchHeaders (Client.new ⟨"s2"⟩ "https://r.azure.com/" ApiType.AzureAD) :=
  ⟨C1_dispatch_header_selection.1 _ rfl,
   C1_dispatch_header_selection.2.1 _ rfl,
   C1_dispatch_header_selection.2.2.1 _ rfl,
   C1_dispatch_header_selection.2.2.2 _ _ rfl rfl⟩

/-- C2: for a client of api type Azure or AzureAD, `generate_api_uri` fails
with the `ModelIdMissingToGenerateApiUriForAzure` client error when the model
id is absent, and otherwise returns exactly
`base ++ "openai/deployments/" ++ modelId ++ "/" ++ apiPath ++ "?api-version=" ++ version`
where `version` is the supplied api version or the default `"2023-05-15"`. -/
theorem C2_gateway_uri (c : Client)
    (h : c.api_type = ApiType.Azure ∨ c.api_type = ApiType.AzureAD)
    (api_path : String) (api_version : Option String) :
    c.generate_api_uri api_path none api_version
      = Except.error (Error.ClientError ClientErrorType.ModelIdMissingToGenerateApiUriForAzure)
    ∧ ∀ model_id : String,
        c.generate_api_uri api_path (some model_id) api_version
          = Except.ok (c.api_endpoint ++ "openai/deployments/" ++ model_id ++ "/" ++ api_path
              ++ "?api-version=" ++ api_version.getD "2023-05-15") := by
  constructor
  · rcases h with h | h <;> simp [Client.generate_api_uri, h]
  · intro model_id
    rcases h with h | h <;> rcases api_version with _ | v <;>
      simp [Client.generate_api_uri, h, Option.getD]

/-- C2 witness: a concrete Azure client with absent model id fails, and with
a model id and no version produces the default-version URI. -/
theorem C2_gateway_uri_witness :
    (Client.new ⟨"k"⟩ "https://r.azure.com/" ApiType.Azure).generate_api_uri
        "chat/completions" none none
      = Except.error (Error.ClientError ClientErrorType.ModelIdMissingToGenerateApiUriForAzure)
    ∧ (Client.new ⟨"k"⟩ "https://r.azure.com/" ApiType.Azure).generate_api_uri
        "chat/completions" (some "dep-1") none
      = Except.ok "https://r.azure.com/openai/deployments/dep-1/chat/completions?api-version=2023-05-15" := by
  have h := C2_gateway_uri (Client.new ⟨"k"⟩ "https://r.azure.com/" ApiType.Azure)
    (Or.inl rfl) "chat/completions" none
  refine ⟨h.1, ?_⟩
  rw [h.2 "dep-1"]
  exact congrArg Except.ok (by decide)

/-- C6: for a client of api type OpenAI, `generate_api_uri` returns exactly
`base ++ "engines/" ++ apiPath` for every model id and api version; in
particular the result is entirely independent of the supplied model id and
api version. -/
theorem C6_direct_uri (c : Client) (h : c.api_type = ApiType.OpenAI)
    (api_path : String) :
    (∀ model_id api_version : Option String,
       c.generate_api_uri api_path model_id api_version
         = Except.ok (c.api_endpoint ++ "engines/" ++ api_path))
    ∧ ∀ mid1 mid2 v1 v2 : Option String,
        c.generate_api_uri api_path mid1 v1 = c.generate_api_uri api_path mid2 v2 := by
  have hbase : ∀ model_id api_version : Option String,
      c.generate_api_uri api_path model_id api_version
        = Except.ok (c.api_endpoint ++ "engines/" ++ api_path) := by
    intro model_id api_version
    simp [Client.generate_api_uri, h]
  refine ⟨hbase, ?_⟩
  intro mid1 mid2 v1 v2
  rw [hbase mid1 v1, hbase mid2 v2]

/-- C6 witness: a concrete OpenAI client ignores a supplied model id and
api version and produces the engines-style URI. -/
theorem C6_direct_uri_witness :
    (Client.new_openai_client ⟨"k"⟩).generate_api_uri "chat/completions"
        (some "gpt-4") (some "2023-05-15")
      = Except.ok "https://api.openai.com/v1/engines/chat/completions"
    ∧ (Client.new_openai_client ⟨"k"⟩).generate_api_uri "chat/completions"
        (some "gpt-4") (some "2023-05-15")
      = (Client.new_openai_client ⟨"k"⟩).generate_api_uri "chat/completions" none none := by
  have h := C6_direct_uri (Client.new_openai_client ⟨"k"⟩) rfl "chat/completions"
  refine ⟨?_, h.2 (some "gpt-4") none (some "2023-05-15") none⟩
  rw [h.1 (some "gpt-4") (some "2023-05-15")]
  exact congrArg Except.ok (by decide)

/-- C7: construction normalizes the endpoint once, so for every endpoint not
already ending in a slash, the client built from it and the client built from
it with a trailing slash appended are the same client and produce identical
results from `generate_api_uri` for every api type, path, model id and
api version. -/
theorem C7_trailing_slash_invariance (e : String) (h : rustEndsWithSlash e = false)
    (auth : Auth) (t : ApiType) (api_path : String)
    (model_id api_version : Option String) :
    (Client.new auth e t).generate_api_uri api_path model_id api_version
      = (Client.new auth (e ++ "/") t).generate_api_uri api_path model_id api_version := by
  have h2 : rustEndsWithSlash (e ++ "/") = true := by
    have hd : (e ++ "/").data = e.data ++ ['/'] := by
      simp [String.data_append]
    simp [rustEndsWithSlash, hd]
  have hclients : Client.new auth e t = Client.new auth (e ++ "/") t := by
    simp [Client.new, Client.update_api_endpoint_to_have_a_slash_add_the_end, h, h2]
  rw [hclients]

/-- C7 witness: the two spellings of a concrete endpoint resolve the same
gateway URI. -/
theorem C7_trailing_slash_invariance_witness :
    rustEndsWithSlash "https://x.com/v1" = false
    ∧ (Client.new ⟨"k"⟩ "https://x.com/v1" ApiType.Azure).generate_api_uri
          "chat/completions" (some "dep-1") none
        = (Client.new ⟨"k"⟩ ("https://x.com/v1" ++ "/") ApiType.Azure).generate_api_uri
          "chat/completions" (some "dep-1") none :=
  ⟨by decide,
   C7_trailing_slash_invariance "https://x.com/v1" (by decide) ⟨"k"⟩ ApiType.Azure
     "chat/completions" (some "dep-1") none⟩

/-- C4 counterexample: the claim "setTemperature(v) succeeds iff 0.0 ≤ v ≤ 2.0"
is false at v = NaN: IEEE `0.0 ≤ NaN` is false, yet the guard
`v < 0.0 || v > 2.0` is also false at NaN, so the setter succeeds and stores
NaN; the same happens for top-p and both penalties. -/
theorem C4_range_validation_counterexample :
    ChatCompletion.new.setTemperature F32.nan
      = Except.ok { ChatCompletion.new with temperature := some F32.nan }
    ∧ ChatCompletion.new.setTopP F32.nan
      = Except.ok { ChatCompletion.new with top_p := some F32.nan }
    ∧ ChatCompletion.new.setPresencePenalty F32.nan
      = Except.ok { ChatCompletion.new with presence_penalty := some F32.nan }
    ∧ ChatCompletion.new.setFrequencyPenalty F32.nan
      = Except.ok { ChatCompletion.new with frequency_penalty := some F32.nan }
    ∧ (F32.fle (F32.val 0) F32.nan = false ∧ F32.fle F32.nan (F32.val 2) = false) :=
  ⟨rfl, rfl, rfl, rfl, rfl, rfl⟩

/-- C4 as amended: each numeric setter accepts exactly the values on which
the IEEE test `v < lo || v > hi` is false; on every numeric (non-NaN) value
this coincides with `lo ≤ v ≤ hi` (temperature `[0,2]`, top-p `[0,1]`,
penalties `[-2,2]`), it succeeds by storing the value and fails with the
respective value-carrying error otherwise — while NaN passes all four
guards and is stored. -/
theorem C4_range_validation (cc : ChatCompletion) (q : ℚ) :
    (cc.setTemperature (F32.val q)
       = if 0 ≤ q ∧ q ≤ 2 then Except.ok { cc with temperature := some (F32.val q) }
         else Except.error (ChatCompletionError.TemperatureValueOutOfRange (F32.val q)))
    ∧ (cc.setTopP (F32.val q)
       = if 0 ≤ q ∧ q ≤ 1 then Except.ok { cc with top_p := some (F32.val q) }
         else Except.error (ChatCompletionError.TopPValueOutOfRange (F32.val q)))
    ∧ (cc.setPresencePenalty (F32.val q)
       = if -2 ≤ q ∧ q ≤ 2 then Except.ok { cc with presence_penalty := some (F32.val q) }
         else Except.error (ChatCompletionError.PresencePenaltyValueOutOfRange (F32.val q)))
    ∧ (cc.setFrequencyPenalty (F32.val q)
       = if -2 ≤ q ∧ q ≤ 2 then Except.ok { cc with frequency_penalty := some (F32.val q) }
         else Except.error (ChatCompletionError.FrequencyPenaltyValueOutOfRange (F32.val q)))
    ∧ cc.setTemperature F32.nan = Except.ok { cc with temperature := some F32.nan }
    ∧ cc.setTopP F32.nan = Except.ok { cc with top_p := some F32.nan }
    ∧ cc.setPresencePenalty F32.nan = Except.ok { cc with presence_penalty := some F32.nan }
    ∧ cc.setFrequencyPenalty F32.nan
      = Except.ok { cc with frequency_penalty := some F32.nan } := by
  refine ⟨?_, ?_, ?_, ?_, rfl, rfl, rfl, rfl⟩
  · rw [ChatCompletion.setTemperature]
    cases hX : (F32.flt (F32.val q) (F32.val 0) || F32.fgt (F32.val q) (F32.val 2)) with
    | false =>
      have hq := (flt_fgt_val_eq_false 0 2 q).mp hX
      simp [hq]
    | true =>
      have hq : ¬ (0 ≤ q ∧ q ≤ 2) := fun hin =>
        Bool.false_ne_true (((flt_fgt_val_eq_false 0 2 q).mpr hin).symm.trans hX)
      simp [hq]
  · rw [ChatCompletion.setTopP]
    cases hX : (F32.flt (F32.val q) (F32.val 0) || F32.fgt (F32.val q) (F32.val 1)) with
    | false =>
      have hq := (flt_fgt_val_eq_false 0 1 q).mp hX
      simp [hq]
    | true =>
      have hq : ¬ (0 ≤ q ∧ q ≤ 1) := fun hin =>
        Bool.false_ne_true (((flt_fgt_val_eq_false 0 1 q).mpr hin).symm.trans hX)
      simp [hq]
  · rw [ChatCompletion.setPresencePenalty]
    cases hX : (F32.flt (F32.val q) (F32.val (-2)) || F32.fgt (F32.val q) (F32.val 2)) with
    | false =>
      have hq := (flt_fgt_val_eq_false (-2) 2 q).mp hX
      simp [hq]
    | true =>
      have hq : ¬ (-2 ≤ q ∧ q ≤ 2) := fun hin =>
        Bool.false_ne_true (((flt_fgt_val_eq_false (-2) 2 q).mpr hin).symm.trans hX)
      simp [hq]
  · rw [ChatCompletion.setFrequencyPenalty]
    cases hX : (F32.flt (F32.val q) (F32.val (-2)) || F32.fgt (F32.val q) (F32.val 2)) with
    | false =>
      have hq := (flt_fgt_val_eq_false (-2) 2 q).mp hX
      simp [hq]
    | true =>
      have hq : ¬ (-2 ≤ q ∧ q ≤ 2) := fun hin =>
        Bool.false_ne_true (((flt_fgt_val_eq_false (-2) 2 q).mpr hin).symm.trans hX)
      simp [hq]

/-- C5 counterexample: the Message Builder performs no validation, so a role
helper applied to the empty string produces a message with empty content:
the list built from `new().system("")` fails the all-contents-non-empty
check, refuting the claim that builder-produced lists never contain an
empty-content message. -/
theorem C5_builder_nonempty_counterexample :
    (ChatMessageBuilder.new.system "").build
      = [{ role := Role.System, content := "", function_call := none, name := none }]
    ∧ ((ChatMessageBuilder.new.system "").build.all fun m => !m.content.isEmpty) = false :=
  ⟨rfl, rfl⟩

/-- C5 as amended: each role helper appends exactly one message carrying the
supplied content verbatim, with no validation; consequently the built list
has all-non-empty contents exactly when the previously built list does and
the newly supplied content is non-empty — non-empty content is guaranteed
only when the caller supplies non-empty content, and bulk `setMessages` of a
builder-produced list can therefore introduce empty-content messages. -/
theorem C5_builder_appends_verbatim (b : ChatMessageBuilder) (content : String)
    (fc : FunctionCall) (name : String) :
    (b.system content).build
      = b.build ++ [{ role := Role.System, content := content, function_call := none, name := none }]
    ∧ (b.assistant content).build
      = b.build ++ [{ role := Role.Assistant, content := content, function_call := none, name := none }]
    ∧ (b.user content).build
      = b.build ++ [{ role := Role.User, content := content, function_call := none, name := none }]
    ∧ (b.function content fc name).build
      = b.build ++ [{ role := Role.Function, content := content, function_call := some fc, name := some name }]
    ∧ ((b.system content).build.all fun m => !m.content.isEmpty)
      = ((b.build.all fun m => !m.content.isEmpty) && !content.isEmpty) := by
  refine ⟨rfl, rfl, rfl, rfl, ?_⟩
  simp [ChatMessageBuilder.build, ChatMessageBuilder.system]

/-- C8: serializing a `ChatCompletion` in which only `messages` is set (the
state `new` followed by bulk `setMessages`) produces a JSON object whose only
member is `messages`; and in general a member name occurs in the emitted
object exactly when the corresponding field is present — every unset optional
field is omitted entirely, never emitted as null. -/
theorem C8_serialization_omits_unset :
    (∀ msgs : List ChatMessage,
       (ChatCompletion.new.setMessages msgs).serialize
         = Json.obj [("messages", Json.arr (msgs.map ChatMessage.serialize))])
    ∧ ∀ (cc : ChatCompletion) (key : String),
        key ∈ cc.serializeKeys
          ↔ ((cc.model.isSome ∧ key = "model")
             ∨ key = "messages"
             ∨ (cc.temperature.isSome ∧ key = "temperature")
             ∨ (cc.top_p.isSome ∧ key = "top_p")
             ∨ (cc.n.isSome ∧ key = "n")
             ∨ (cc.stream.isSome ∧ key = "stream")
             ∨ (cc.stop.isSome ∧ key = "stop")
             ∨ (cc.max_tokens.isSome ∧ key = "max_tokens")
             ∨ (cc.presence_penalty.isSome ∧ key = "presence_penalty")
             ∨ (cc.frequency_penalty.isSome ∧ key = "frequency_penalty")
             ∨ (cc.logit_bias.isSome ∧ key = "logit_bias")
             ∨ (cc.user.isSome ∧ key = "user")
             ∨ (cc.function_call.isSome ∧ key = "function_call")
             ∨ (cc.functions.isSome ∧ key = "functions")) :=
  ⟨fun _ => rfl, serializeKeys_mem⟩

/-- C3: `create` fails with `EmptyMessages` whenever the message list is
empty, regardless of every other field, client, transport and decoder; on a
non-empty message list and any builder-reachable state, the model identifier
is stamped into the request value exactly when the api type is OpenAI, and
for the two Azure (gateway) kinds the `model` member is absent from the
serialized body. -/
theorem C3_create_empty_messages_and_model_stamping :
    (∀ (cc : ChatCompletion) (client : Client) (mid : String) (ver : Option String)
        (transport : HttpRequest → SendOutcome)
        (decode : String → Except String ChatCompletionResponse),
      cc.messages = [] →
        cc.create client mid ver transport decode
          = (cc, Except.error (CreateError.chatError ChatCompletionError.EmptyMessages)))
    ∧ (∀ (cc : ChatCompletion) (client : Client) (mid : String) (ver : Option String)
        (transport : HttpRequest → SendOutcome)
        (decode : String → Except String ChatCompletionResponse),
      Reachable cc → cc.messages ≠ [] →
        ((cc.create client mid ver transport decode).1.model
            = if client.api_type = ApiType.OpenAI then some mid else none)
        ∧ ("model" ∈ (cc.create client mid ver transport decode).1.serializeKeys
            ↔ client.api_type = ApiType.OpenAI)) := by
  constructor
  · intro cc client mid ver transport decode h
    rw [ChatCompletion.create]
    simp [h]
  · intro cc client mid ver transport decode hr h
    have hfst := create_fst cc client mid ver transport decode h
    have hmodel : (cc.create client mid ver transport decode).1.model
        = if client.api_type = ApiType.OpenAI then some mid else none := by
      rw [hfst]
      by_cases ht : client.api_type = ApiType.OpenAI
      · simp [ht]
      · simp [ht, hr.model_none]
    refine ⟨hmodel, ?_⟩
    rw [model_mem_serializeKeys, hmodel]
    by_cases ht : client.api_type = ApiType.OpenAI <;> simp [ht]

/-- C3 witness: an empty builder fails with `EmptyMessages` at a concrete
client; a one-message builder stamped through a concrete OpenAI client has
`model = some "gpt-4"` (member present), while through a concrete Azure
client the model field and member stay absent. -/
theorem C3_create_empty_messages_and_model_stamping_witness :
    (ChatCompletion.new.create (Client.new ⟨"k"⟩ "https://r.azure.com" ApiType.Azure) "dep-1"
        none (fun _ => SendOutcome.success "") (fun _ => Except.error "bad")
      = (ChatCompletion.new, Except.error (CreateError.chatError ChatCompletionError.EmptyMessages)))
    ∧ ((ChatCompletion.new.setMessages
          [{ role := Role.User, content := "hi", function_call := none, name := none }]).create
         (Client.new_openai_client ⟨"k"⟩) "gpt-4" none
         (fun _ => SendOutcome.success "") (fun _ => Except.error "bad")).1.model = some "gpt-4"
    ∧ "model" ∈ ((ChatCompletion.new.setMessages
          [{ role := Role.User, content := "hi", function_call := none, name := none }]).create
         (Client.new_openai_client ⟨"k"⟩) "gpt-4" none
         (fun _ => SendOutcome.success "") (fun _ => Except.error "bad")).1.serializeKeys
    ∧ ((ChatCompletion.new.setMessages
          [{ role := Role.User, content := "hi", function_call := none, name := none }]).create
         (Client.new ⟨"k"⟩ "https://r.azure.com" ApiType.Azure) "dep-1" none
         (fun _ => SendOutcome.success "") (fun _ => Except.error "bad")).1.model = none
    ∧ ¬ "model" ∈ ((ChatCompletion.new.setMessages
          [{ role := Role.User, content := "hi", function_call := none, name := none }]).create
         (Client.new ⟨"k"⟩ "https://r.azure.com" ApiType.Azure) "dep-1" none
         (fun _ => SendOutcome.success "") (fun _ => Except.error "bad")).1.serializeKeys := by
  have h1 := C3_create_empty_messages_and_model_stamping.1 ChatCompletion.new
    (Client.new ⟨"k"⟩ "https://r.azure.com" ApiType.Azure) "dep-1" none
    (fun _ => SendOutcome.success "") (fun _ => Except.error "bad") rfl
  have h2 := C3_create_empty_messages_and_model_stamping.2
    (ChatCompletion.new.setMessages
      [{ role := Role.User, content := "hi", function_call := none, name := none }])
    (Client.new_openai_client ⟨"k"⟩) "gpt-4" none
    (fun _ => SendOutcome.success "") (fun _ => Except.error "bad")
    (Reachable.setMessages _ Reachable.new) (List.cons_ne_nil _ _)
  have h3 := C3_create_empty_messages_and_model_stamping.2
    (ChatCompletion.new.setMessages
      [{ role := Role.User, content := "hi", function_call := none, name := none }])
    (Client.new ⟨"k"⟩ "https://r.azure.com" ApiType.Azure) "dep-1" none
    (fun _ => SendOutcome.success "") (fun _ => Except.error "bad")
    (Reachable.setMessages _ Reachable.new) (List.cons_ne_nil _ _)
  refine ⟨h1, by simpa using h2.1, h2.2.mpr rfl, by simpa using h3.1, ?_⟩
  intro hmem
  exact absurd (h3.2.mp hmem) (by decide)

/-- C9: the dispatch layer has a raw-text mode (`post` returns the response
body text verbatim) and a typed mode (`create` returns the decoded
`ChatCompletionResponse`); in the typed mode a decoding failure surfaces as
`decodeError` and a failed send as `dispatchError (sendError ..)`, which are
provably distinct errors, so the caller can tell which occurred. -/
theorem C9_raw_and_typed_modes_distinct_errors :
    ∀ (cc : ChatCompletion) (client : Client) (mid : String) (ver : Option String)
      (t m : String) (decode : String → Except String ChatCompletionResponse)
      (api_path body : String),
    cc.messages ≠ [] →
    (Requestor.post client api_path body (some mid) ver (fun _ => SendOutcome.success t)
       = Except.ok t)
    ∧ (decode t = Except.error m →
        (cc.create client mid ver (fun _ => SendOutcome.success t) decode).2
          = Except.error (CreateError.decodeError m))
    ∧ (∀ r : ChatCompletionResponse, decode t = Except.ok r →
        (cc.create client mid ver (fun _ => SendOutcome.success t) decode).2 = Except.ok r)
    ∧ ((cc.create client mid ver (fun _ => SendOutcome.failure m) decode).2
        = Except.error (CreateError.dispatchError (DispatchError.sendError m)))
    ∧ (∀ a b : String,
        CreateError.decodeError a ≠ CreateError.dispatchError (DispatchError.sendError b)) := by
  intro cc client mid ver t m decode api_path body h
  have hne : cc.messages.isEmpty = false := List.isEmpty_eq_false.mpr h
  obtain ⟨u, hu⟩ := generate_api_uri_some_ok client api_path mid ver
  obtain ⟨u2, hu2⟩ := generate_api_uri_some_ok client API_PATH mid ver
  refine ⟨?_, ?_, ?_, ?_, fun a b => CreateError.noConfusion⟩
  · rw [Requestor.post, hu]
  · intro hdec
    simp [ChatCompletion.create, hne, Requestor.post, hu2, hdec]
  · intro r hdec
    simp [ChatCompletion.create, hne, Requestor.post, hu2, hdec]
  · simp [ChatCompletion.create, hne, Requestor.post, hu2]

/-- C9 witness: at a concrete Azure client and one-message request, the raw
mode returns the body text; a failing decoder yields `decodeError`, a
succeeding decoder yields the decoded response, a failing transport yields
`dispatchError (sendError ..)`, and two such errors are unequal. -/
theorem C9_raw_and_typed_modes_distinct_errors_witness :
    (Requestor.post (Client.new ⟨"k"⟩ "https://r.azure.com" ApiType.Azure) "chat/completions"
        "body" (some "dep-1") none (fun _ => SendOutcome.success "resp") = Except.ok "resp")
    ∧ ((ChatCompletion.new.setMessages
          [{ role := Role.User, content := "hi", function_call := none, name := none }]).create
         (Client.new ⟨"k"⟩ "https://r.azure.com" ApiType.Azure) "dep-1" none
         (fun _ => SendOutcome.success "resp") (fun _ => Except.error "boom")).2
        = Except.error (CreateError.decodeError "boom")
    ∧ ((ChatCompletion.new.setMessages
          [{ role := Role.User, content := "hi", function_call := none, name := none }]).create
         (Client.new ⟨"k"⟩ "https://r.azure.com" ApiType.Azure) "dep-1" none
         (fun _ => SendOutcome.success "resp")
         (fun _ => Except.ok { id := "i", object := "o", created := 0, model := "m", choices := [], usage := none })).2
        = Except.ok { id := "i", object := "o", created := 0, model := "m", choices := [], usage := none }
    ∧ ((ChatCompletion.new.setMessages
          [{ role := Role.User, content := "hi", function_call := none, name := none }]).create
         (Client.new ⟨"k"⟩ "https://r.azure.com" ApiType.Azure) "dep-1" none
         (fun _ => SendOutcome.failure "down") (fun _ => Except.error "boom")).2
        = Except.error (CreateError.dispatchError (DispatchError.sendError "down"))
    ∧ CreateError.decodeError "boom"
        ≠ CreateError.dispatchError (DispatchError.sendError "down") := by
  have ha := C9_raw_and_typed_modes_distinct_errors
    (ChatCompletion.new.setMessages
      [{ role := Role.User, content := "hi", function_call := none, name := none }])
    (Client.new ⟨"k"⟩ "https://r.azure.com" ApiType.Azure) "dep-1" none
    "resp" "boom" (fun _ => Except.error "boom") "chat/completions" "body"
    (List.cons_ne_nil _ _)
  have hb := C9_raw_and_typed_modes_distinct_errors
    (ChatCompletion.new.setMessages
      [{ role := Role.User, content := "hi", function_call := none, name := none }])
    (Client.new ⟨"k"⟩ "https://r.azure.com" ApiType.Azure) "dep-1" none
    "resp" "down" (fun _ => Except.ok { id := "i", object := "o", created := 0, model := "m", choices := [], usage := none }) "chat/completions" "body"
    (List.cons_ne_nil _ _)
  exact ⟨ha.1, ha.2.1 rfl, hb.2.2.1 _ rfl, hb.2.2.2.1, ha.2.2.2.2 "boom" "down"⟩

/-- C10 (frame effect): on a non-empty message list, `create` modifies at
most the `model` field of the request value: `messages`, `temperature`,
`top_p`, `n`, `stream`, `stop`, `max_tokens`, `presence_penalty`,
`frequency_penalty`, `logit_bias`, `user`, `function_call` and `functions`
all come out unchanged, and `model` is set to the given model id for an
OpenAI client and left untouched for the two Azure kinds. -/
theorem C10_create_frame (cc : ChatCompletion) (client : Client) (mid : String)
    (ver : Option String) (transport : HttpRequest → SendOutcome)
    (decode : String → Except String ChatCompletionResponse)
    (h : cc.messages ≠ []) :
    ((cc.create client mid ver transport decode).1.messages = cc.messages)
    ∧ ((cc.create client mid ver transport decode).1.temperature = cc.temperature)
    ∧ ((cc.create client mid ver transport decode).1.top_p = cc.top_p)
    ∧ ((cc.create client mid ver transport decode).1.n = cc.n)
    ∧ ((cc.create client mid ver transport decode).1.stream = cc.stream)
    ∧ ((cc.create client mid ver transport decode).1.stop = cc.stop)
    ∧ ((cc.create client mid ver transport decode).1.max_tokens = cc.max_tokens)
    ∧ ((cc.create client mid ver transport decode).1.presence_penalty = cc.presence_penalty)
    ∧ ((cc.create client mid ver transport decode).1.frequency_penalty = cc.frequency_penalty)
    ∧ ((cc.create client mid ver transport decode).1.logit_bias = cc.logit_bias)
    ∧ ((cc.create client mid ver transport decode).1.user = cc.user)
    ∧ ((cc.create client mid ver transport decode).1.function_call = cc.function_call)
    ∧ ((cc.create client mid ver transport decode).1.functions = cc.functions)
    ∧ ((cc.create client mid ver transport decode).1.model
        = if client.api_type = ApiType.OpenAI then some mid else cc.model) := by
  have hfst := create_fst cc client mid ver transport decode h
  rw [hfst]
  by_cases ht : client.api_type = ApiType.OpenAI <;> simp [ht]

/-- C10 witness: a concrete request with messages and max_tokens set, run
through a concrete OpenAI client, keeps both fields and gains only the
model. -/
theorem C10_create_frame_witness :
    ((((ChatCompletion.new.setMessages
          [{ role := Role.User, content := "hi", function_call := none, name := none }]).setMaxTokens
          5).create (Client.new_openai_client ⟨"k"⟩) "gpt-4" none
         (fun _ => SendOutcome.success "") (fun _ => Except.error "bad")).1.messages
        = [{ role := Role.User, content := "hi", function_call := none, name := none }])
    ∧ ((((ChatCompletion.new.setMessages
          [{ role := Role.User, content := "hi", function_call := none, name := none }]).setMaxTokens
          5).create (Client.new_openai_client ⟨"k"⟩) "gpt-4" none
         (fun _ => SendOutcome.success "") (fun _ => Except.error "bad")).1.max_tokens = some 5)
    ∧ ((((ChatCompletion.new.setMessages
          [{ role := Role.User, content := "hi", function_call := none, name := none }]).setMaxTokens
          5).create (Client.new_openai_client ⟨"k"⟩) "gpt-4" none
         (fun _ => SendOutcome.success "") (fun _ => Except.error "bad")).1.model = some "gpt-4") := by
  have h := C10_create_frame
    ((ChatCompletion.new.setMessages
        [{ role := Role.User, content := "hi", function_call := none, name := none }]).setMaxTokens 5)
    (Client.new_openai_client ⟨"k"⟩) "gpt-4" none
    (fun _ => SendOutcome.success "") (fun _ => Except.error "bad") (List.cons_ne_nil _ _)
  obtain ⟨h1, _, _, _, _, _, h7, _, _, _, _, _, _, h14⟩ := h
  exact ⟨by simpa using h1, by simpa using h7, by simpa using h14⟩
